import Mathlib

set_option linter.unusedVariables false

/-!
Shallow embedding of the F1 SignalR live-timing client
(src/python-example/signalr.py) and proofs about its behaviour.

The embedding mirrors the Python semantics of the operations the client
performs on parsed JSON frames: subscript access, membership tests,
iteration and attribute lookup each return either a value or the Python
exception the source would raise.  Fallible steps are `Except PyErr`.
-/

/-- JSON values as produced by parsing a text frame.  Objects are
association lists of string keys; Python dicts preserve insertion order,
and dict lookup is first-match (parsed JSON objects have unique keys). -/
inductive Json where
  | null
  | bool (b : Bool)
  | num (n : Int)
  | str (s : String)
  | arr (items : List Json)
  | obj (fields : List (String × Json))

/-- The Python exceptions the embedded operations can raise. -/
inductive PyErr where
  | typeError
  | keyError
  | indexError
  | attributeError
  | valueError
  | httpError
  | transportError

/-- Whether the first character list is an initial segment of the second. -/
def charsStart : List Char → List Char → Bool
  | [], _ => true
  | _ :: _, [] => false
  | p :: ps, c :: cs => p == c && charsStart ps cs

/-- Whether the first character list occurs contiguously in the second. -/
def charsOccur (pat : List Char) : List Char → Bool
  | [] => charsStart pat []
  | c :: cs => charsStart pat (c :: cs) || charsOccur pat cs

/-- Python substring test: whether pat occurs in s. -/
def pyStrContains (s pat : String) : Bool :=
  charsOccur pat.toList s.toList

/-- Python equality between a JSON value and a string literal: only equal
strings compare equal, every other value compares unequal (no raise). -/
def pyEqStrJ (v : Json) (s : String) : Bool :=
  match v with
  | .str t => t == s
  | _ => false

/-- Python membership test with a string on the left: key lookup for dicts,
element equality for lists, substring test for strings; numbers, booleans
and None are not containers and raise TypeError. -/
def pyContains (j : Json) (k : String) : Except PyErr Bool :=
  match j with
  | .obj fs => .ok (fs.any (fun p => p.1 == k))
  | .arr l => .ok (l.any (fun v => pyEqStrJ v k))
  | .str s => .ok (pyStrContains s k)
  | _ => .error .typeError

/-- Python subscript with a string key: dict lookup (KeyError when the key
is absent); lists, strings and scalars raise TypeError. -/
def getItemStr (j : Json) (k : String) : Except PyErr Json :=
  match j with
  | .obj fs =>
    match fs.lookup k with
    | some v => .ok v
    | none => .error .keyError
  | _ => .error .typeError

/-- Python subscript with a nonnegative integer index: list element or
IndexError; one-character string or IndexError for strings; a JSON dict has
only string keys so an integer subscript raises KeyError; scalars raise
TypeError. -/
def getItemIdx (j : Json) (i : Nat) : Except PyErr Json :=
  match j with
  | .arr l =>
    match l[i]? with
    | some v => .ok v
    | none => .error .indexError
  | .str s =>
    match s.toList[i]? with
    | some c => .ok (.str (String.singleton c))
    | none => .error .indexError
  | .obj _ => .error .keyError
  | _ => .error .typeError

/-- Python d.get(k): defined on dicts, returning the value or None; every
other value lacks the method and raises AttributeError. -/
def dictGetPy (j : Json) (k : String) : Except PyErr (Option Json) :=
  match j with
  | .obj fs => .ok (fs.lookup k)
  | _ => .error .attributeError

/-- Python iteration: lists yield their elements, dicts their keys, strings
their characters as one-character strings; scalars raise TypeError. -/
def pyIterate (j : Json) : Except PyErr (List Json) :=
  match j with
  | .arr l => .ok l
  | .obj fs => .ok (fs.map (fun p => Json.str p.1))
  | .str s => .ok (s.toList.map (fun c => Json.str (String.singleton c)))
  | _ => .error .typeError

/-- isinstance(raw, list) or isinstance(raw, dict). -/
def isListOrDict : Json → Bool
  | .arr _ => true
  | .obj _ => true
  | _ => false

/-- The list/dict dispatch on a Messages value (signalr.py lines 103-109
and 114-120): an ordered list is used as it is, a mapping contributes its
values in insertion order, anything else is logged and skipped. -/
def messagesOf : Json → Option (List Json)
  | .arr l => some l
  | .obj fs => some (fs.map Prod.snd)
  | _ => none

/-- One hub entry of an incremental frame (signalr.py lines 97-111): the
raw items this entry hands to _handle_rc, or the exception its unguarded
accesses raise.  An entry whose method is not the feed method or whose
first argument is not the subscribed topic contributes nothing; a Messages
value that is neither list nor dict is logged and skipped. -/
def processEntry (entry : Json) : Except PyErr (List Json) :=
  match dictGetPy entry "M" with
  | .error e => .error e
  | .ok mval =>
    if (match mval with | some v => pyEqStrJ v "feed" | none => false) then
      match getItemStr entry "A" with
      | .error e => .error e
      | .ok a =>
        match getItemIdx a 0 with
        | .error e => .error e
        | .ok a0 =>
          if pyEqStrJ a0 "RaceControlMessages" then
            match getItemIdx a 1 with
            | .error e => .error e
            | .ok a1 =>
              match getItemStr a1 "Messages" with
              | .error e => .error e
              | .ok raw =>
                match messagesOf raw with
                | some items => .ok items
                | none => .ok []
          else .ok []
    else .ok []

/-- All hub entries of an incremental frame, in order.  Items produced by
entries preceding a raising entry were already handed over before the
exception aborts the frame. -/
def processEntries : List Json → List Json × Option PyErr
  | [] => ([], none)
  | e :: rest =>
    match processEntry e with
    | .error err => ([], some err)
    | .ok items =>
      match processEntries rest with
      | (more, err) => (items ++ more, err)

/-- The frame demultiplexer (signalr.py lines 96-122) applied to one parsed
payload: the raw items handed to _handle_rc in order, together with the
exception escaping the frame processing, if any. -/
def demux (payload : Json) : List Json × Option PyErr :=
  match pyContains payload "M" with
  | .error e => ([], some e)
  | .ok true =>
    match getItemStr payload "M" with
    | .error e => ([], some e)
    | .ok mv =>
      match pyIterate mv with
      | .error e => ([], some e)
      | .ok entries => processEntries entries
  | .ok false =>
    match pyContains payload "R" with
    | .error e => ([], some e)
    | .ok false => ([], none)
    | .ok true =>
      match getItemStr payload "R" with
      | .error e => ([], some e)
      | .ok rv =>
        match pyContains rv "RaceControlMessages" with
        | .error e => ([], some e)
        | .ok false => ([], none)
        | .ok true =>
          match getItemStr rv "RaceControlMessages" with
          | .error e => ([], some e)
          | .ok rcm =>
            match getItemStr rcm "Messages" with
            | .error e => ([], some e)
            | .ok raw =>
              match messagesOf raw with
              | some items => (items, none)
              | none => ([], none)

/-- An incremental-frame hub entry carrying the given Messages value for
the subscribed topic. -/
def feedEntry (msgs : Json) : Json :=
  .obj [("M", .str "feed"),
        ("A", .arr [.str "RaceControlMessages", .obj [("Messages", msgs)]])]

/-- A snapshot frame carrying the given Messages value for the subscribed
topic. -/
def snapPayload (msgs : Json) : Json :=
  .obj [("R", .obj [("RaceControlMessages", .obj [("Messages", msgs)])])]

/-- Modelled from the spec: the NormalizedRecord produced by the external
transform rc_transform.clean_rc (excluded from this core) must expose a
timestamp usable for cutoff comparison; utcTime is that parsed timestamp
and body carries the rest of the record. -/
structure RcRecord where
  utcTime : Int
  body : Json

/-- The external collaborators of _handle_rc: the transform
(rc_transform.clean_rc), the optional consumer looked up from hass.data
(machine.apply) and the state publisher (_async_update_flag_sensor via
hass.states.async_set).  Each may raise. -/
structure ClientEnv where
  transform : Json → Int → Except PyErr (Option RcRecord)
  machine : Option (RcRecord → Except PyErr (Option String × Json))
  publish : String → Json → Except PyErr Unit

/-- The mutable fields of SignalRClient: the connection handle _ws, the
epoch start _t0 and the backlog cutoff _startup_cutoff (timestamps as
integer seconds). -/
structure ClientState where
  ws : Option Nat
  t0 : Int
  startupCutoff : Option Int

/-- What one _handle_rc invocation did with its raw item. -/
inductive Outcome where
  | notRelevant
  | filtered
  | noMachine
  | applied (r : RcRecord) (changed : Option String)

/-- The result of _handle_rc as seen by the caller: a completed outcome or
a caught-and-logged exception. -/
inductive HandleResult where
  | done (o : Outcome)
  | logged (e : PyErr)

/-- The consumer branch of _handle_rc (signalr.py lines 145-150): look up
the machine, apply the record, and publish the changed state if any. -/
def handleRcApply (env : ClientEnv) (clean : RcRecord) : Except PyErr Outcome :=
  match env.machine with
  | none => .ok .noMachine
  | some ap =>
    match ap clean with
    | .error e => .error e
    | .ok (changed, attrs) =>
      match changed with
      | none => .ok (.applied clean none)
      | some st =>
        match env.publish st attrs with
        | .error e => .error e
        | .ok _ => .ok (.applied clean (some st))

/-- The body of _handle_rc before the enclosing try/except (signalr.py
lines 136-150): transform, startup filter, then the consumer branch. -/
def handleRcEx (env : ClientEnv) (s : ClientState) (raw : Json) :
    Except PyErr Outcome :=
  match env.transform raw s.t0 with
  | .error e => .error e
  | .ok none => .ok .notRelevant
  | .ok (some clean) =>
    match s.startupCutoff with
    | some cutoff =>
      if clean.utcTime < cutoff then .ok .filtered
      else handleRcApply env clean
    | none => handleRcApply env clean

/-- _handle_rc (signalr.py lines 134-154): the body wrapped in the
try/except that logs any exception instead of propagating it. -/
def handleRc (env : ClientEnv) (s : ClientState) (raw : Json) : HandleResult :=
  match handleRcEx env s raw with
  | .ok o => .done o
  | .error e => .logged e

/-- The subscribe control frame SUBSCRIBE_MSG (signalr.py lines 18-23). -/
def SUBSCRIBE_MSG : Json :=
  .obj [("H", .str "Streaming"), ("M", .str "Subscribe"),
        ("A", .arr [.arr [.str "RaceControlMessages"]]), ("I", .num 1)]

/-- Externally visible actions of the client, in order of occurrence. -/
inductive ClientAction where
  | httpGet
  | wsConnect (token : Option Json) (cookie : Option String)
  | sendJson (msg : Json)
  | recvFrame

/-- Whether an action sends a frame to the server. -/
def ClientAction.isSend : ClientAction → Bool
  | .sendJson _ => true
  | _ => false

/-- The negotiate HTTP response: status code, parsed JSON body, and the
optional Set-Cookie header. -/
structure NegotiateResp where
  status : Nat
  body : Json
  setCookie : Option String

/-- aiohttp resp.raise_for_status(): raises for any status of 400 or
above. -/
def raiseForStatus (st : Nat) : Except PyErr Unit :=
  if 400 ≤ st then .error .httpError else .ok ()

/-- The Cookie header sent on the websocket request: the negotiated cookie
when truthy (a nonempty string), otherwise absent (signalr.py lines
49-50). -/
def cookieHeaderOf : Option String → Option String
  | some s => if s = "" then none else some s
  | none => none

/-- The negotiate phase of connect (signalr.py lines 39-43): check the
HTTP status, then read the token with data.get (absent token becomes None,
not an error) and capture the cookie. -/
def negotiateAndRequest (resp : NegotiateResp) :
    Except PyErr (Option Json × Option String) :=
  match raiseForStatus resp.status with
  | .error e => .error e
  | .ok _ =>
    match dictGetPy resp.body "ConnectionToken" with
    | .error e => .error e
    | .ok token => .ok (token, cookieHeaderOf resp.setCookie)

/-- One invocation of connect (signalr.py lines 36-65): the actions it
performs, and either the updated client state or the exception it raises.
wsResult stands for the outcome of session.ws_connect. -/
def connectRun (resp : NegotiateResp) (wsResult : Except PyErr Nat)
    (now : Int) (s : ClientState) :
    List ClientAction × Except PyErr ClientState :=
  match negotiateAndRequest resp with
  | .error e => ([.httpGet], .error e)
  | .ok (token, cookie) =>
    match wsResult with
    | .error e => ([.httpGet, .wsConnect token cookie], .error e)
    | .ok h =>
      ([.httpGet, .wsConnect token cookie, .sendJson SUBSCRIBE_MSG],
       .ok { ws := some h, t0 := now, startupCutoff := some (now - 30) })

/-- close() (signalr.py lines 129-132): release the handle when one is
held.  The second component counts the ws.close() invocations this call
performed. -/
def closeClient (s : ClientState) : ClientState × Nat :=
  match s.ws with
  | some _ => ({ s with ws := none }, 1)
  | none => (s, 0)

/-- The websocket message types the loop distinguishes. -/
inductive WSMsgType where
  | text
  | binary
  | closed
  | error

/-- One websocket message: its type and raw text data. -/
structure WSMsg where
  type : WSMsgType
  data : String

/-- Everything one run of the messages() generator produces: the payloads
yielded, the raw items handed to _handle_rc in order, the per-item
results, the actions performed, and the exception escaping to the caller,
if any. -/
structure MsgOut where
  yielded : List Json
  handled : List Json
  outcomes : List HandleResult
  actions : List ClientAction
  err : Option PyErr

/-- The frame-consumption loop of messages() (signalr.py lines 88-127):
text frames are parsed (malformed ones skipped), demultiplexed, their raw
items handed to _handle_rc, and the payload yielded; CLOSED and ERROR
frames end the loop; other frame types fall through.  A demux exception
escapes to the caller and ends the run. -/
def processFrames (parse : String → Option Json) (env : ClientEnv)
    (s : ClientState) : List WSMsg → MsgOut
  | [] => ⟨[], [], [], [], none⟩
  | fr :: rest =>
    match fr.type with
    | .closed => ⟨[], [], [], [.recvFrame], none⟩
    | .error => ⟨[], [], [], [.recvFrame], none⟩
    | .binary =>
      let r := processFrames parse env s rest
      ⟨r.yielded, r.handled, r.outcomes, .recvFrame :: r.actions, r.err⟩
    | .text =>
      match parse fr.data with
      | none =>
        let r := processFrames parse env s rest
        ⟨r.yielded, r.handled, r.outcomes, .recvFrame :: r.actions, r.err⟩
      | some payload =>
        match demux payload with
        | (items, some e) =>
          ⟨[], items, items.map (handleRc env s), [.recvFrame], some e⟩
        | (items, none) =>
          let r := processFrames parse env s rest
          ⟨payload :: r.yielded, items ++ r.handled,
           items.map (handleRc env s) ++ r.outcomes,
           .recvFrame :: r.actions, r.err⟩

/-- messages() (signalr.py lines 84-127): with no active handle the
generator returns at once; otherwise it runs the frame-consumption loop
over the frames the connection delivers. -/
def messagesRun (parse : String → Option Json) (env : ClientEnv)
    (s : ClientState) (frames : List WSMsg) : MsgOut :=
  match s.ws with
  | none => ⟨[], [], [], [], none⟩
  | some _ => processFrames parse env s frames

/-- The delay slept before the n-th retry within one invocation of
_ensure_connection (signalr.py lines 67-82): the delay starts at the floor
D0 and after each failure is multiplied by F and capped at Dmax. -/
def delaySeq (D0 F Dmax : NNRat) : Nat → NNRat
  | 0 => D0
  | n + 1 => min (delaySeq D0 F Dmax n * F) Dmax


/-! ## Helper lemmas -/

/-- The loop control of processFrames (payloads yielded, items handed over,
actions performed, escaping exception) does not depend on the external
collaborators: only the per-item outcomes do. -/
theorem processFrames_env_irrelevant (parse : String → Option Json)
    (s : ClientState) (env env2 : ClientEnv) (frames : List WSMsg) :
    (processFrames parse env s frames).yielded
      = (processFrames parse env2 s frames).yielded
    ∧ (processFrames parse env s frames).handled
      = (processFrames parse env2 s frames).handled
    ∧ (processFrames parse env s frames).actions
      = (processFrames parse env2 s frames).actions
    ∧ (processFrames parse env s frames).err
      = (processFrames parse env2 s frames).err := by
  induction frames with
  | nil => exact ⟨rfl, rfl, rfl, rfl⟩
  | cons fr rest ih =>
    obtain ⟨h1, h2, h3, h4⟩ := ih
    obtain ⟨ty, d⟩ := fr
    cases ty with
    | closed => exact ⟨rfl, rfl, rfl, rfl⟩
    | error => exact ⟨rfl, rfl, rfl, rfl⟩
    | binary =>
      refine ⟨h1, h2, ?_, h4⟩
      simp only [processFrames]
      rw [h3]
    | text =>
      cases hp : parse d with
      | none =>
        simp only [processFrames, hp]
        exact ⟨h1, h2, by rw [h3], h4⟩
      | some payload =>
        rcases hd : demux payload with ⟨items, derr⟩
        cases derr with
        | none =>
          simp only [processFrames, hp, hd]
          exact ⟨by rw [h1], by rw [h2], by rw [h3], h4⟩
        | some e => simp [processFrames, hp, hd]

/-- The frame-consumption loop performs no send action. -/
theorem processFrames_no_send (parse : String → Option Json) (env : ClientEnv)
    (s : ClientState) (frames : List WSMsg) :
    (processFrames parse env s frames).actions.filter ClientAction.isSend
      = [] := by
  induction frames with
  | nil => rfl
  | cons fr rest ih =>
    obtain ⟨ty, d⟩ := fr
    cases ty with
    | closed => rfl
    | error => rfl
    | binary =>
      simp only [processFrames]
      simp [List.filter, ClientAction.isSend, ih]
    | text =>
      cases hp : parse d with
      | none =>
        simp only [processFrames, hp]
        simp [List.filter, ClientAction.isSend, ih]
      | some payload =>
        rcases hd : demux payload with ⟨items, derr⟩
        cases derr with
        | none =>
          simp only [processFrames, hp, hd]
          simp [List.filter, ClientAction.isSend, ih]
        | some e =>
          simp only [processFrames, hp, hd]
          simp [List.filter, ClientAction.isSend]

/-! ## Claim theorems -/

/-- C7: close() is idempotent: after one call the client holds no active
connection handle, and a second call is a no-op that raises no error and
performs no second release of the underlying connection. -/
theorem close_idempotent (s : ClientState) :
    ((closeClient s).1).ws = none
    ∧ closeClient ((closeClient s).1) = (((closeClient s).1), 0) := by
  cases hws : s.ws <;> simp [closeClient, hws]

/-- C10: messages() invoked while the client holds no active connection
handle (before any successful connect, or after close()) yields an empty
sequence and returns immediately without raising an error. -/
theorem messages_no_connection :
    (∀ parse env s frames, s.ws = none →
       messagesRun parse env s frames = ⟨[], [], [], [], none⟩)
    ∧ (∀ parse env s frames,
       messagesRun parse env (closeClient s).1 frames
         = ⟨[], [], [], [], none⟩) := by
  constructor
  · intro parse env s frames hws
    simp [messagesRun, hws]
  · intro parse env s frames
    cases hws : s.ws with
    | none => simp [messagesRun, closeClient, hws]
    | some h => simp [messagesRun, closeClient, hws]

theorem messages_no_connection_witness :
    messagesRun (fun _ => none)
        ⟨fun _ _ => .ok none, none, fun _ _ => .ok ()⟩
        ⟨none, 0, none⟩ [] = ⟨[], [], [], [], none⟩ :=
  messages_no_connection.1 _ _ _ _ rfl

/-- C9: a text frame whose body is not valid JSON is discarded; the
consumption loop continues with the next frame, no exception escapes to
the caller of messages(), and the frame contributes no raw items and is
not yielded. -/
theorem malformed_frame_skipped (parse : String → Option Json)
    (env : ClientEnv) (s : ClientState) (d : String) (rest : List WSMsg)
    (hp : parse d = none) :
    (messagesRun parse env s (⟨.text, d⟩ :: rest)).yielded
      = (messagesRun parse env s rest).yielded
    ∧ (messagesRun parse env s (⟨.text, d⟩ :: rest)).handled
      = (messagesRun parse env s rest).handled
    ∧ (messagesRun parse env s (⟨.text, d⟩ :: rest)).outcomes
      = (messagesRun parse env s rest).outcomes
    ∧ (messagesRun parse env s (⟨.text, d⟩ :: rest)).err
      = (messagesRun parse env s rest).err := by
  cases hws : s.ws with
  | none => simp [messagesRun, hws]
  | some h =>
    simp only [messagesRun, hws]
    simp [processFrames, hp]

theorem malformed_frame_skipped_witness :
    (messagesRun (fun _ => none)
        ⟨fun _ _ => .ok none, none, fun _ _ => .ok ()⟩
        ⟨some 0, 0, none⟩ [⟨.text, "x"⟩]).err
      = (messagesRun (fun _ => none)
        ⟨fun _ _ => .ok none, none, fun _ _ => .ok ()⟩
        ⟨some 0, 0, none⟩ []).err :=
  (malformed_frame_skipped _ _ _ "x" [] rfl).2.2.2

/-- C4: within one invocation of the reconnect loop, assuming backoff
factor F at least 1 and floor D0 at most ceiling Dmax, the sequence of
delays slept is non-decreasing and bounded by Dmax, and each invocation
starts its delay at D0 (so the first delay after a successful connect is
again D0). -/
theorem backoff_monotone_bounded (D0 F Dmax : NNRat) (hF : 1 ≤ F)
    (hD : D0 ≤ Dmax) :
    (∀ n, delaySeq D0 F Dmax n ≤ delaySeq D0 F Dmax (n + 1))
    ∧ (∀ n, delaySeq D0 F Dmax n ≤ Dmax)
    ∧ delaySeq D0 F Dmax 0 = D0 := by
  have hbound : ∀ n, delaySeq D0 F Dmax n ≤ Dmax := by
    intro n
    induction n with
    | zero => exact hD
    | succ k ih => exact min_le_right _ _
  refine ⟨?_, hbound, rfl⟩
  intro n
  have hgrow : delaySeq D0 F Dmax n ≤ delaySeq D0 F Dmax n * F :=
    le_mul_of_one_le_right (zero_le _) hF
  exact le_min hgrow (hbound n)

theorem backoff_monotone_bounded_witness :
    delaySeq 1 2 2 0 = 1 ∧ delaySeq 1 2 2 3 ≤ 2 :=
  ⟨(backoff_monotone_bounded 1 2 2 one_le_two one_le_two).2.2,
   (backoff_monotone_bounded 1 2 2 one_le_two one_le_two).2.1 3⟩

/-- C3: for a raw item whose transform yields a record, a timestamp
strictly before the current epoch's cutoff means the item is discarded and
apply is never invoked (the result is the filtered outcome for every
possible consumer); a timestamp at or after the boundary reaches the
consumer's apply; and every successful connect recomputes the cutoff as
its fresh epoch start minus 30 seconds. -/
theorem startup_filter_boundary :
    (∀ env s raw r cut, env.transform raw s.t0 = .ok (some r) →
       s.startupCutoff = some cut → r.utcTime < cut →
       handleRc env s raw = .done .filtered)
    ∧ (∀ env s raw r cut ap attrs, env.transform raw s.t0 = .ok (some r) →
       s.startupCutoff = some cut → cut ≤ r.utcTime →
       env.machine = some ap → ap r = .ok (none, attrs) →
       handleRc env s raw = .done (.applied r none))
    ∧ (∀ resp wsr now s st, (connectRun resp wsr now s).2 = .ok st →
       st.startupCutoff = some (now - 30) ∧ st.t0 = now) := by
  refine ⟨?_, ?_, ?_⟩
  · intro env s raw r cut ht hc hlt
    simp [handleRc, handleRcEx, ht, hc, hlt]
  · intro env s raw r cut ap attrs ht hc hle hm hap
    simp [handleRc, handleRcEx, ht, hc, not_lt.mpr hle, handleRcApply, hm, hap]
  · intro resp wsr now s st h
    unfold connectRun at h
    cases hn : negotiateAndRequest resp with
    | error e => rw [hn] at h; exact absurd h (by simp)
    | ok p =>
      obtain ⟨token, cookie⟩ := p
      rw [hn] at h
      cases wsr with
      | error e => exact absurd h (by simp)
      | ok hh =>
        simp only [Except.ok.injEq] at h
        rw [← h]
        exact ⟨rfl, rfl⟩

theorem startup_filter_boundary_witness :
    handleRc ⟨fun _ _ => .ok (some ⟨5, .null⟩), none, fun _ _ => .ok ()⟩
        ⟨some 0, 0, some 10⟩ .null = .done .filtered
    ∧ handleRc
        ⟨fun _ _ => .ok (some ⟨50, .null⟩),
         some (fun _ => .ok (none, .null)), fun _ _ => .ok ()⟩
        ⟨some 0, 0, some 10⟩ .null = .done (.applied ⟨50, .null⟩ none) :=
  ⟨startup_filter_boundary.1 _ _ _ ⟨5, .null⟩ 10 rfl rfl (by decide),
   startup_filter_boundary.2.1 _ _ _ ⟨50, .null⟩ 10 (fun _ => .ok (none, .null))
     .null rfl rfl (by decide) rfl rfl⟩

/-- C5: an exception raised during the per-item handoff (by the transform,
the consumer's apply, or the state publish) is caught at the handoff point
and logged, and the frame-consumption loop is unaffected: the payloads
yielded, the items handed over, the actions performed and the exception
escaping to the caller of messages() are identical for every choice of
collaborators, including ones that raise on every item. -/
theorem collaborator_errors_isolated :
    (∀ env s raw e, handleRcEx env s raw = .error e →
       handleRc env s raw = .logged e)
    ∧ (∀ parse s frames env env2,
       (messagesRun parse env s frames).yielded
         = (messagesRun parse env2 s frames).yielded
       ∧ (messagesRun parse env s frames).handled
         = (messagesRun parse env2 s frames).handled
       ∧ (messagesRun parse env s frames).actions
         = (messagesRun parse env2 s frames).actions
       ∧ (messagesRun parse env s frames).err
         = (messagesRun parse env2 s frames).err) := by
  constructor
  · intro env s raw e h
    simp [handleRc, h]
  · intro parse s frames env env2
    cases hws : s.ws with
    | none => simp [messagesRun, hws]
    | some h =>
      simp only [messagesRun, hws]
      exact processFrames_env_irrelevant parse s env env2 frames

theorem collaborator_errors_isolated_witness :
    handleRc ⟨fun _ _ => .error .valueError, none, fun _ _ => .ok ()⟩
        ⟨some 0, 0, none⟩ .null = .logged .valueError :=
  collaborator_errors_isolated.1 _ _ _ .valueError rfl

/-- C8: every successful connect performs exactly one send, of the
subscribe frame with exact shape H Streaming, M Subscribe, A
RaceControlMessages, I 1, immediately after the connection is established
and before any frame is received; the consumption loop never sends, so the
frame is never re-sent during the lifetime of the connection. -/
theorem subscribe_sent_once :
    SUBSCRIBE_MSG = .obj [("H", .str "Streaming"), ("M", .str "Subscribe"),
        ("A", .arr [.arr [.str "RaceControlMessages"]]), ("I", .num 1)]
    ∧ (∀ resp wsr now s st, (connectRun resp wsr now s).2 = .ok st →
       ∃ t c, (connectRun resp wsr now s).1
         = [.httpGet, .wsConnect t c, .sendJson SUBSCRIBE_MSG])
    ∧ (∀ parse env s frames,
       (messagesRun parse env s frames).actions.filter ClientAction.isSend
         = []) := by
  refine ⟨rfl, ?_, ?_⟩
  · intro resp wsr now s st h
    cases hn : negotiateAndRequest resp with
    | error e => simp [connectRun, hn] at h
    | ok p =>
      obtain ⟨token, cookie⟩ := p
      cases wsr with
      | error e => simp [connectRun, hn] at h
      | ok hh => exact ⟨token, cookie, by simp [connectRun, hn]⟩
  · intro parse env s frames
    cases hws : s.ws with
    | none => simp [messagesRun, hws]
    | some h =>
      simp only [messagesRun, hws]
      exact processFrames_no_send parse env s frames

theorem subscribe_sent_once_witness :
    ∃ t c, (connectRun ⟨200, .obj [("ConnectionToken", .str "T1")], none⟩
        (.ok 1) 0 ⟨none, 0, none⟩).1
      = [.httpGet, .wsConnect t c, .sendJson SUBSCRIBE_MSG] :=
  subscribe_sent_once.2.1 _ _ _ _ ⟨some 1, 0, some (0 - 30)⟩ rfl

/-- C2 counterexample: a successful negotiate response whose body lacks
the ConnectionToken field raises nothing; connect proceeds to open the
streaming connection with a None token and even sends the subscribe frame,
refuting the claim that a missing token fails the negotiation and prevents
a streaming connection. -/
theorem negotiate_missing_token_counterexample :
    connectRun ⟨200, .obj [], none⟩ (.ok 7) 100 ⟨none, 0, none⟩
      = ([.httpGet, .wsConnect none none, .sendJson SUBSCRIBE_MSG],
         .ok ⟨some 7, 100, some (100 - 30)⟩) := rfl

/-- C2 amended: the negotiation step fails (routing into the retry path,
with no streaming connection opened) whenever the HTTP negotiate response
is not successful; when the connection-token field is merely absent from a
successful response, no error is raised and the client proceeds to open
the streaming connection with a None token. -/
theorem negotiate_failure_behavior :
    (∀ resp wsr now s, 400 ≤ resp.status →
       connectRun resp wsr now s = ([.httpGet], .error .httpError))
    ∧ (∀ resp wsr now s fs, resp.status < 400 → resp.body = .obj fs →
       fs.lookup "ConnectionToken" = none →
       ClientAction.wsConnect none (cookieHeaderOf resp.setCookie)
         ∈ (connectRun resp wsr now s).1) := by
  constructor
  · intro resp wsr now s h
    simp [connectRun, negotiateAndRequest, raiseForStatus, if_pos h]
  · intro resp wsr now s fs hlt hb hlook
    have hn : negotiateAndRequest resp
        = .ok (none, cookieHeaderOf resp.setCookie) := by
      simp [negotiateAndRequest, raiseForStatus, if_neg (not_le.mpr hlt),
        hb, dictGetPy, hlook]
    unfold connectRun
    rw [hn]
    cases wsr <;> simp

theorem negotiate_failure_behavior_witness :
    connectRun ⟨404, .obj [], none⟩ (.ok 1) 0 ⟨none, 0, none⟩
      = ([.httpGet], .error .httpError)
    ∧ ClientAction.wsConnect none (cookieHeaderOf none)
      ∈ (connectRun ⟨200, .obj [], none⟩ (.ok 1) 0 ⟨none, 0, none⟩).1 :=
  ⟨negotiate_failure_behavior.1 _ _ _ _ (by decide),
   negotiate_failure_behavior.2 _ _ _ _ [] (by decide) rfl rfl⟩

/-- C1 counterexample: the frame body 5 is valid JSON and matches neither
the incremental nor the snapshot shape, yet processing it raises a
TypeError (the membership test on a number) which escapes to the caller of
messages(), refuting the claim that processing an arbitrary parsed JSON
value never raises. -/
theorem demux_raises_counterexample :
    (messagesRun (fun _ => some (.num 5))
        ⟨fun _ _ => .ok none, none, fun _ _ => .ok ()⟩
        ⟨some 0, 0, none⟩ [⟨.text, "5"⟩]).err = some .typeError := rfl

/-- C1 amended: a frame whose body is a JSON object containing neither an
M key nor an R key is ignored without error; a matched frame whose
Messages value is neither a list nor a mapping is logged and skipped
non-fatally, with the following entries (and frames) processed unaffected;
but processing of an arbitrary parsed JSON value can raise: non-object
payloads and matched frames with missing or ill-typed nested fields raise,
and the exception escapes messages(). -/
theorem unmatched_frames_behavior :
    (∀ fs : List (String × Json), fs.any (fun p => p.1 == "M") = false →
       fs.any (fun p => p.1 == "R") = false → demux (.obj fs) = ([], none))
    ∧ (∀ v, isListOrDict v = false → demux (snapPayload v) = ([], none))
    ∧ (∀ v items, isListOrDict v = false →
       demux (.obj [("M", .arr [feedEntry v, feedEntry (.arr items)])])
         = (items, none)) := by
  refine ⟨?_, ?_, ?_⟩
  · intro fs h1 h2
    simp [demux, pyContains, h1, h2]
  · intro v h
    cases v with
    | arr l => exact absurd h (by simp [isListOrDict])
    | obj fs => exact absurd h (by simp [isListOrDict])
    | null => rfl
    | bool b => rfl
    | num n => rfl
    | str s => rfl
  · intro v items h
    cases v with
    | arr l => exact absurd h (by simp [isListOrDict])
    | obj fs => exact absurd h (by simp [isListOrDict])
    | null =>
      show (([] : List Json) ++ (items ++ []), (none : Option PyErr))
        = (items, none)
      simp
    | bool b =>
      show (([] : List Json) ++ (items ++ []), (none : Option PyErr))
        = (items, none)
      simp
    | num n =>
      show (([] : List Json) ++ (items ++ []), (none : Option PyErr))
        = (items, none)
      simp
    | str s =>
      show (([] : List Json) ++ (items ++ []), (none : Option PyErr))
        = (items, none)
      simp

theorem unmatched_frames_behavior_witness :
    demux (.obj [("X", .null)]) = ([], none)
    ∧ demux (snapPayload (.num 3)) = ([], none)
    ∧ demux (.obj [("M", .arr [feedEntry (.num 3), feedEntry (.arr [.null])])])
      = ([.null], none) :=
  ⟨unmatched_frames_behavior.1 _ rfl rfl,
   unmatched_frames_behavior.2.1 _ rfl,
   unmatched_frames_behavior.2.2 _ [.null] rfl⟩

/-- C6: a Messages payload presented as an ordered list is handed to
per-item processing exactly in list order (in both the incremental and the
snapshot shape), a mapping contributes its values, and a mapping whose
values are the same items as a list yields the same multiset of raw
items. -/
theorem messages_list_vs_mapping (l : List Json)
    (fs : List (String × Json)) :
    demux (snapPayload (.arr l)) = (l, none)
    ∧ demux (snapPayload (.obj fs)) = (fs.map Prod.snd, none)
    ∧ demux (.obj [("M", .arr [feedEntry (.arr l)])]) = (l, none)
    ∧ demux (.obj [("M", .arr [feedEntry (.obj fs)])])
      = (fs.map Prod.snd, none)
    ∧ (Multiset.ofList (fs.map Prod.snd) = Multiset.ofList l →
       Multiset.ofList (demux (snapPayload (.obj fs))).1
         = Multiset.ofList l) := by
  refine ⟨rfl, rfl, ?_, ?_, ?_⟩
  · show (l ++ [], (none : Option PyErr)) = (l, none)
    simp
  · show (fs.map Prod.snd ++ [], (none : Option PyErr))
      = (fs.map Prod.snd, none)
    simp
  · intro h
    exact h

theorem messages_list_vs_mapping_witness :
    Multiset.ofList (demux (snapPayload (.obj [("k", .null)]))).1
      = Multiset.ofList [.null] :=
  (messages_list_vs_mapping [.null] [("k", .null)]).2.2.2.2 rfl
